import Mathlib

/-!
Verification development for the documentation-generator repository.

The embedding models, from the source files:
  - `src/config/constants.py` (token ceilings),
  - `src/utils/api.py` (single-file generation, overview generation, truncation),
  - `src/core/docgen.py` (sequential orchestrator),
  - `src/core/concurrent_docgen.py` (worker, full-concurrent and batch orchestrators).

External collaborators are modelled as oracles: the remote model endpoint is a
function from (max_tokens, prompt) to either a reply or a raised exception
message; the directory visualization collaborator supplies the ascii tree and
mermaid strings. LLM prompt templates are reproduced with their text content;
the leading indentation that Python triple-quoted literals carry is not
reproduced character for character (no claim inspects prompt text).

Python dictionaries are modelled as association lists in insertion order with
`dictInsert` implementing assignment (overwrite in place, else append), and
Python tuples crossing the worker boundary are modelled as `List PyVal` so that
tuple unpacking, and its arity failures, are represented faithfully.

Scheduler nondeterminism (the `as_completed` completion order of a thread
pool) is modelled by quantifying over a completion order that is a permutation
of the submitted tasks.
-/

namespace DocGen

/-- From src/config/constants.py line 156. -/
def BASIC_LEVEL_MAX_TOKENS : Nat := 4000

/-- From src/config/constants.py line 157. -/
def COMPREHENSIVE_LEVEL_MAX_TOKENS : Nat := 5000

/-- From src/config/constants.py line 158. -/
def EXPERT_LEVEL_MAX_TOKENS : Nat := 7000

/-- From src/config/constants.py line 159. -/
def PROJECT_OVERVIEW_MAX_TOKENS : Nat := 5000

/-- Outcome of one remote `client.messages.create` call: a reply text, or a
raised exception carrying a message. -/
inductive CallResult where
  | ok (text : String)
  | exn (msg : String)
  deriving DecidableEq, Repr

/-- The remote-client handle. `call max_tokens prompt` stands for
`client.messages.create(model=DEFAULT_MODEL, max_tokens=..., temperature=DEFAULT_TEMPERATURE, messages=[prompt])`;
the fixed model name and temperature constants are omitted from the oracle
signature. -/
structure Client where
  call : Nat → String → CallResult

/-- One extracted source file, as produced by archive extraction
(spec section 3, FileRecord): content, language label, parent directory. -/
structure FileInfo where
  content : String
  language : String
  directory : String
  deriving DecidableEq, Repr

/-- The run configuration entries the core reads (`config[...]` accesses and
the `st.session_state.force_content_overview` flag read in
`generate_content_based_overview`). -/
structure Config where
  doc_level : String
  generate_overview : Bool
  generate_dir_structure : Bool
  force_content_overview : Bool

/-- The external world of one run: whether `anthropic.Anthropic(api_key)`
construction succeeds and with which client, and the directory-visualization
collaborator output (`build_directory_tree`), which is out of the core's scope
per the spec (section 1). -/
structure Env where
  anthropic_ctor : Except String Client
  ascii_tree : String
  mermaid_code : String

/-- src/utils/api.py lines 95-111: wraps client construction, re-raising with
a formatted message. -/
def initialize_client (env : Env) : Except String Client :=
  match env.anthropic_ctor with
  | .ok c => .ok c
  | .error e => .error ("Failed to initialize Claude client: " ++ e)

/-- src/utils/api.py lines 114-143: language-specific prompt enhancement. -/
def get_language_prompt (language : String) : String :=
  if language = "Python" then
    "For Python files, also include:\n- Docstring format compliance (Google style, NumPy, etc.)\n- Type hints usage\n- Recommended improvements to code organization"
  else if language = "JavaScript" then
    "For JavaScript files, also include:\n- ES6+ feature usage\n- Module pattern analysis\n- Potential browser compatibility issues"
  else if language = "TypeScript" then
    "For TypeScript files, also include:\n- Type system usage analysis\n- Interface and type definitions overview\n- Compilation target considerations"
  else if language = "Java" then
    "For Java files, also include:\n- Class hierarchy analysis\n- Design patterns used\n- Exception handling overview"
  else ""

/-- src/utils/api.py lines 167-178, the detail-level dispatch of
`generate_documentation`: the instruction text selected for a `doc_level`. An
unrecognized level falls through to the comprehensive default. -/
def detail_instruction (doc_level : String) : String :=
  if doc_level = "basic" then
    "Provide a basic overview with essential information only."
  else if doc_level = "expert" then
    "Provide extremely detailed documentation with advanced insights and best practices."
  else
    "Provide comprehensive documentation with a good balance of detail."

/-- src/utils/api.py lines 167-178, the detail-level dispatch of
`generate_documentation`: the max-token ceiling selected for a `doc_level`. -/
def detail_max_tokens (doc_level : String) : Nat :=
  if doc_level = "basic" then BASIC_LEVEL_MAX_TOKENS
  else if doc_level = "expert" then EXPERT_LEVEL_MAX_TOKENS
  else COMPREHENSIVE_LEVEL_MAX_TOKENS

/-- src/utils/api.py lines 183-204: the per-file documentation prompt. -/
def documentation_prompt (file_path : String) (file_info : FileInfo) (doc_level : String) : String :=
  "Please generate " ++ doc_level ++ " documentation for the following " ++ file_info.language
    ++ " file.\n" ++ detail_instruction doc_level
    ++ "\n\nInclude:\n1. Overall purpose and functionality\n2. Detailed function/class documentation with parameters and return values\n3. Code structure overview\n4. Dependencies and requirements\n5. Usage examples where appropriate\n6. Potential issues or areas for improvement\n\n"
    ++ get_language_prompt file_info.language
    ++ "\n\nFile: " ++ file_path ++ "\n\n```" ++ file_info.language.toLower ++ "\n"
    ++ file_info.content
    ++ "\n```\n\nFormat the documentation in clean, well-structured markdown."

/-- src/utils/api.py lines 146-217, `generate_documentation`: builds the
prompt, makes exactly one remote call, and catches any exception from it,
returning a formatted error string in place of documentation. -/
def generate_documentation (file_path : String) (file_info : FileInfo) (client : Client)
    (doc_level : String) : String :=
  match client.call (detail_max_tokens doc_level) (documentation_prompt file_path file_info doc_level) with
  | .ok text => text
  | .exn e => "Error generating documentation: " ++ e

/-- Python `str.startswith`: the needle is a code-point prefix of the string.
Semantically `String.startsWith`, defined over the character list so that
proofs can evaluate it on concrete inputs. -/
def py_startswith (s pre : String) : Bool := pre.toList.isPrefixOf s.toList

/-- Python `os.path.basename` restricted to forward-slash paths (the corpus
paths are relative, forward-slash separated per spec section 3). -/
def basename (p : String) : String :=
  (p.splitOn "/").getLastD p

/-- Python `str.rfind` for a single-character needle over the characters of a
string: the index of the last occurrence, or -1. -/
def rfind (l : List Char) (c : Char) : Int :=
  match l with
  | [] => -1
  | x :: xs =>
    let r := rfind xs c
    if 0 ≤ r then r + 1 else if x = c then 0 else -1

/-- src/utils/api.py lines 590-607, `_truncate_content`: truncation with a
sentence/newline boundary heuristic. Python compares
`boundary > max_chars * 0.7` in binary floating point; the comparison is
modelled as the exact rational inequality `10 * boundary > 7 * max_chars`
(the two differ only at inputs where `max_chars * 0.7` rounds across the
integer `boundary`, and every theorem below holds for either branch). -/
def _truncate_content (content : String) (max_chars : Nat) : String :=
  let cs := content.toList
  if cs.length ≤ max_chars then content
  else
    let truncated := cs.take max_chars
    let last_period := rfind truncated '.'
    let last_newline := rfind truncated '\n'
    let boundary := max last_period last_newline
    if boundary * 10 > (max_chars : Int) * 7 then
      String.mk (truncated.take (boundary.toNat + 1)) ++ "\n\n[Content truncated...]"
    else
      String.mk truncated ++ "\n\n[Content truncated...]"

/-- A Python `dict[str, str]` in insertion order. -/
abbrev Doc := List (String × String)

/-- The key list of a dict, in insertion order. -/
def dictKeys (d : Doc) : List String := d.map Prod.fst

/-- Python dict assignment `d[k] = v`: overwrite in place when the key exists,
else append. -/
def dictInsert (d : Doc) (k v : String) : Doc :=
  if k ∈ dictKeys d then d.map (fun p => if p.1 = k then (k, v) else p)
  else d ++ [(k, v)]

/-- Python `d.get(k)`. -/
def dictGet? (d : Doc) (k : String) : Option String :=
  (d.find? (fun p => p.1 = k)).map Prod.snd

/-- src/utils/api.py lines 571-587, `_organize_docs_by_directory`: group the
documentation entries by the directory recorded for the path in `files`,
keeping first-appearance order of directories and entry order within each
(a Python dict of lists). -/
def _organize_docs_by_directory (docs : List (String × String))
    (files : List (String × FileInfo)) : List (String × List (String × String)) :=
  docs.foldl (fun acc p =>
    let dir_path := match files.find? (fun q => q.1 = p.1) with
      | some q => q.2.directory
      | none => ""
    if acc.any (fun e => e.1 = dir_path) then
      acc.map (fun e => if e.1 = dir_path then (e.1, e.2 ++ [p]) else e)
    else acc ++ [(dir_path, [p])]) []

/-- src/utils/api.py lines 337-353: the per-directory content sections of the
direct overview prompt. -/
def direct_overview_sections (file_docs : List (String × String))
    (files : List (String × FileInfo)) : String :=
  let dir_structure := _organize_docs_by_directory file_docs files
  String.intercalate "\n" (dir_structure.foldl (fun sections e =>
    let header := if e.1 ≠ "" then "\n## Directory: " ++ e.1 ++ "/\n" else "\n## Root Directory\n"
    sections ++ [header] ++ e.2.map (fun q =>
      "### " ++ basename q.1 ++ "\n" ++ _truncate_content q.2 1000 ++ "\n")) [])

/-- src/utils/api.py lines 329-384, `_generate_overview_direct`: one remote
call over the concatenated (truncated) per-file documentation. -/
def _generate_overview_direct (file_docs : List (String × String))
    (files : List (String × FileInfo)) (client : Client) : String :=
  let combined_content := direct_overview_sections file_docs files
  let prompt :=
    "Generate a comprehensive project overview based on the following detailed documentation for each file in the codebase. Use the actual documentation content to understand the project's purpose, architecture, and functionality.\n\n"
      ++ combined_content
      ++ "\n\nBased on this documentation, create a project overview with:\n1. **Project Purpose** - What this project does and its main goals\n2. **Architecture Overview** - How components work together\n3. **Key Features** - Main functionality based on the documented code\n4. **Technical Stack** - Technologies, frameworks, and patterns used\n5. **Component Relationships** - How different parts interact\n6. **Notable Implementation Details** - Interesting technical aspects\n7. **Potential Improvements** - Areas of the project that may be messy, sub-optimal, or against industry standard software engineering principles. Only add this section if there is an obvious or recurring issue.\n\nFormat as a well-structured markdown document. Focus on insights that can only be gained from reading the actual code documentation, not just file names."
  match client.call PROJECT_OVERVIEW_MAX_TOKENS prompt with
  | .ok text => text
  | .exn e => "Error generating content-based overview: " ++ e

/-- src/utils/api.py lines 501-530, `_generate_file_summary`: one remote call
summarizing one file's documentation; a raised exception is absorbed into a
failure string. Python applies `.strip()` to the reply; the model keeps the
reply text as is (no claim inspects it). -/
def _generate_file_summary (file_path : String) (doc_content : String) (client : Client) : String :=
  let prompt :=
    "Summarize the following file documentation in 2-3 sentences. Focus on:\n- What this file does (purpose/responsibility)\n- Key functions/classes it contains\n- How it fits into the larger system\n\nFile: "
      ++ basename file_path ++ "\nDocumentation:\n" ++ _truncate_content doc_content 2000
      ++ "\n\nProvide a concise summary:"
  match client.call 300 prompt with
  | .ok text => text
  | .exn _ => "Summary generation failed for " ++ file_path

/-- src/utils/api.py lines 387-445, `_generate_overview_with_summaries`:
summarize every file, then one remote call over the grouped summaries. -/
def _generate_overview_with_summaries (file_docs : List (String × String))
    (files : List (String × FileInfo)) (client : Client) : String :=
  let file_summaries := file_docs.map (fun p => (p.1, _generate_file_summary p.1 p.2 client))
  let dir_structure := _organize_docs_by_directory file_summaries files
  let combined_summaries := String.intercalate "\n" (dir_structure.foldl (fun sections e =>
    let header := if e.1 ≠ "" then "\n## Directory: " ++ e.1 ++ "/\n" else "\n## Root Directory\n"
    sections ++ [header] ++ e.2.map (fun q => "**" ++ basename q.1 ++ "**: " ++ q.2)) [])
  let prompt :=
    "Generate a comprehensive project overview based on these file-by-file summaries of the project's documentation:\n\n"
      ++ combined_summaries
      ++ "\n\nCreate a high-level project overview that synthesizes these individual file summaries into:\n1. **Project Purpose** - Overall goal and domain\n2. **System Architecture** - How components fit together\n3. **Core Functionality** - Main features and capabilities\n4. **Technology Stack** - Frameworks, libraries, and patterns\n5. **Data Flow** - How information moves through the system\n6. **Key Design Patterns** - Architectural approaches used\n\nFocus on the big picture and relationships between components rather than individual file details."
  match client.call PROJECT_OVERVIEW_MAX_TOKENS prompt with
  | .ok text => text
  | .exn e => "Error generating summary-based overview: " ++ e

/-- src/utils/api.py lines 533-568, `_generate_directory_summary`: one remote
call summarizing one directory from its files' documentation. -/
def _generate_directory_summary (dir_name : String) (docs : List (String × String))
    (client : Client) : String :=
  let combined_content := String.intercalate "\n" (docs.map (fun q =>
    "**" ++ basename q.1 ++ "**: " ++ _truncate_content q.2 500))
  let prompt :=
    "Summarize the purpose and functionality of the \"" ++ dir_name
      ++ "\" directory based on its files' documentation. Focus on:\n- What this directory's role is in the project\n- Main functionality it provides\n- How files work together within this directory\n\nFiles in "
      ++ dir_name ++ ":\n" ++ combined_content ++ "\n\nProvide a 3-4 sentence directory summary:"
  match client.call 300 prompt with
  | .ok text => text
  | .exn _ => "Directory summary generation failed for " ++ dir_name

/-- src/utils/api.py lines 448-498, `_generate_overview_hierarchical`:
summarize each directory, then one remote call over the directory summaries. -/
def _generate_overview_hierarchical (file_docs : List (String × String))
    (files : List (String × FileInfo)) (client : Client) : String :=
  let dir_structure := _organize_docs_by_directory file_docs files
  let directory_summaries := dir_structure.map (fun e =>
    let dir_name := if e.1 ≠ "" then e.1 else "Root"
    (dir_name, _generate_directory_summary dir_name e.2 client))
  let dir_summary_text := String.intercalate "\n\n" (directory_summaries.map (fun e =>
    "**" ++ e.1 ++ "**: " ++ e.2))
  let prompt :=
    "Generate a high-level project overview based on these directory-level summaries:\n\n"
      ++ dir_summary_text
      ++ "\n\nCreate an executive-level project overview that covers:\n1. **Project Mission** - What problem this solves\n2. **System Architecture** - Major components and their roles\n3. **Technical Approach** - Key technologies and methodologies\n4. **Feature Overview** - Main capabilities and functions\n5. **Integration Points** - How different parts connect\n6. **Scalability & Design** - Architectural decisions and patterns\n\nThis should be a high-level strategic overview suitable for stakeholders who want to understand the project's scope and approach."
  match client.call PROJECT_OVERVIEW_MAX_TOKENS prompt with
  | .ok text => text
  | .exn e => "Error generating hierarchical overview: " ++ e

/-- The mode `generate_content_based_overview` dispatches to, mirroring the
`if not st.session_state.force_content_overview: if/elif/else ... else` chain
of src/utils/api.py lines 318-326. -/
inductive OverviewMode where
  | direct
  | withSummaries
  | hierarchical
  deriving DecidableEq, Repr

/-- src/utils/api.py lines 318-326: the strategy selection of
`generate_content_based_overview` as a function of the force flag and the
estimated token count. -/
def choose_overview_mode (force_content_overview : Bool) (estimated_tokens : Nat) : OverviewMode :=
  if !force_content_overview then
    if estimated_tokens < 15000 then .direct
    else if estimated_tokens < 50000 then .withSummaries
    else .hierarchical
  else .direct

/-- src/utils/api.py lines 290-326, `generate_content_based_overview`: filter
out the double-underscore sentinel entries, return a fixed string when
nothing remains, else estimate tokens as concatenated length over three and
dispatch on size (or on the force flag). -/
def generate_content_based_overview (documentation : Doc) (files : List (String × FileInfo))
    (client : Client) (force_content_overview : Bool) : String :=
  let file_docs := documentation.filter (fun p => !(py_startswith p.1 "__"))
  if file_docs.isEmpty then
    "No file documentation available for overview generation."
  else
    let total_content := String.intercalate "\n\n" (file_docs.map Prod.snd)
    let estimated_tokens := total_content.length / 3
    match choose_overview_mode force_content_overview estimated_tokens with
    | .direct => _generate_overview_direct file_docs files client
    | .withSummaries => _generate_overview_with_summaries file_docs files client
    | .hierarchical => _generate_overview_hierarchical file_docs files client

/-- Insertion of a key-value pair into a list sorted by key (Python `sorted`
over dict items / pairs; keys are unique in every use below, so comparison of
the second components never decides). -/
def insertSorted (x : String × α) : List (String × α) → List (String × α)
  | [] => [x]
  | y :: ys => if x.1 ≤ y.1 then x :: y :: ys else y :: insertSorted x ys

/-- Python `sorted` by first component (stable, keys unique in every use). -/
def sortByKey (l : List (String × α)) : List (String × α) :=
  l.foldr insertSorted []

/-- src/utils/api.py lines 234-254: the directory-grouped file listing of the
metadata-based overview prompt (`generate_project_overview`). -/
def project_overview_file_list (files : List (String × FileInfo)) : String :=
  let dir_structure := files.foldl (fun acc p =>
    let dir_path := p.2.directory
    if acc.any (fun e => e.1 = dir_path) then
      acc.map (fun e => if e.1 = dir_path then (e.1, e.2 ++ [(p.1, p.2.language)]) else e)
    else acc ++ [(dir_path, [(p.1, p.2.language)])]) []
  String.intercalate "\n" ((sortByKey dir_structure).foldl (fun file_summaries e =>
    let header := if e.1 ≠ "" then "\n**Directory: " ++ e.1 ++ "/**" else "\n**Root Directory:**"
    file_summaries ++ [header] ++ (sortByKey e.2).map (fun q =>
      "  - " ++ basename q.1 ++ " (" ++ q.2 ++ ")")) [])

/-- src/utils/api.py lines 220-287, `generate_project_overview`: the older,
metadata-based overview used by the sequential orchestrator; one remote call,
exceptions absorbed into an error string. -/
def generate_project_overview (files : List (String × FileInfo)) (client : Client) : String :=
  let prompt :=
    "Please generate a project overview based on the following list of files in the codebase. Create a summary that discusses the likely purpose of the project, its structure, and how the files might relate to each other.\n\nPay special attention to the directory structure and how it reflects the project's architecture. Consider what different directories might represent in terms of functionality or components.\n\nProject file structure:\n"
      ++ project_overview_file_list files
      ++ "\n\nFormat your response as a comprehensive markdown document with appropriate headings and structure.\nInclude sections for:\n1. Project Purpose\n2. Architecture Overview\n3. Key Components\n4. Potential Dependencies and Technologies"
  match client.call PROJECT_OVERVIEW_MAX_TOKENS prompt with
  | .ok text => text
  | .exn e => "Error generating project overview: " ++ e

/-- A Python value crossing the worker boundary (the worker returns a tuple
that the orchestrators unpack). -/
inductive PyVal where
  | vStr (s : String)
  | vBool (b : Bool)
  deriving DecidableEq, Repr

/-- Python `str(...)` coercion used where an unpacked component is consumed as
a string. -/
def PyVal.asStr : PyVal → String
  | .vStr s => s
  | .vBool b => if b then "True" else "False"

/-- Python truthiness used where an unpacked component is consumed as a
condition. -/
def PyVal.asBool : PyVal → Bool
  | .vBool b => b
  | .vStr s => s ≠ ""

/-- src/core/concurrent_docgen.py lines 46-63,
`generate_file_documentation_worker`: calls `generate_documentation` and
returns the 4-tuple `(file_path, documentation, True, "")`. The worker's own
except-branch (returning `success=False`) is unreachable because
`generate_documentation` already converts every remote exception into an
error string, so the worker never observes an exception. -/
def generate_file_documentation_worker (file_path : String) (file_info : FileInfo)
    (client : Client) (doc_level : String) : List PyVal :=
  [.vStr file_path, .vStr (generate_documentation file_path file_info client doc_level),
   .vBool true, .vStr ""]

/-- Python tuple unpacking `a, b, c = t`: fails with ValueError when the tuple
has a different arity. -/
def unpack3 (vals : List PyVal) : Except String (PyVal × PyVal × PyVal) :=
  match vals with
  | [a, b, c] => .ok (a, b, c)
  | _ =>
    if vals.length > 3 then .error "too many values to unpack (expected 3)"
    else .error ("not enough values to unpack (expected 3, got " ++ toString vals.length ++ ")")

/-- Python tuple unpacking `a, b, c, d = t`. -/
def unpack4 (vals : List PyVal) : Except String (PyVal × PyVal × PyVal × PyVal) :=
  match vals with
  | [a, b, c, d] => .ok (a, b, c, d)
  | _ =>
    if vals.length > 4 then .error "too many values to unpack (expected 4)"
    else .error ("not enough values to unpack (expected 4, got " ++ toString vals.length ++ ")")

/-- What one orchestrator run observably does: the returned mapping (`none`
models `return None`, the run-failure signal), the file paths submitted to
worker tasks, and the denominator of every `completed / total` progress-ratio
division the run performs (empty means no such division is ever evaluated). -/
structure ExecOutcome where
  result : Option Doc
  spawned : List String
  progress_denominators : List Nat
  deriving DecidableEq, Repr

/-- src/core/concurrent_docgen.py lines 97-103 (also 237-243): the
`__mermaid_diagram__` value of the concurrent and batch orchestrators. -/
def mermaid_entry (mermaid_code : String) : String :=
  "\n# Project Directory Structure (Interactive)\n\n```mermaid\n" ++ mermaid_code ++ "\n```\n"

/-- src/core/docgen.py lines 70-76: the `__mermaid_diagram__` value of the
sequential orchestrator (its triple-quoted literal carries the function-body
indentation). -/
def mermaid_entry_sequential (mermaid_code : String) : String :=
  "\n    # Project Directory Structure (Interactive)\n    \n    ```mermaid\n    "
    ++ mermaid_code ++ "\n    ```\n    "

/-- Modelled from the spec: `display_documentation_progress` is imported from
`utils.ui` by src/core/docgen.py and called once per file before that file is
processed, but no definition of it exists in the source files. Per the spec
(section 4.3, section 6) the progress display computes the ratio
completed / total; the model records the denominators of the divisions one
call performs. -/
def display_documentation_progress_divisions (_current_index : Nat) (total_files : Nat)
    (_file_path : String) : List Nat := [total_files]

/-- src/core/docgen.py lines 40-94, `generate_all_documentation`: the
sequential orchestrator. Client construction failure returns `None`; the
directory sentinels (toggle and more than one file), then the metadata-based
overview sentinel (toggle and more than one file), then one entry per file in
input order. No worker task is ever spawned. -/
def generate_all_documentation (files : List (String × FileInfo)) (config : Config)
    (env : Env) : ExecOutcome :=
  match initialize_client env with
  | .error _ => ⟨none, [], []⟩
  | .ok client =>
    let documentation : Doc := []
    let documentation :=
      if config.generate_dir_structure && decide (1 < files.length) then
        dictInsert (dictInsert documentation "__directory_structure__" env.ascii_tree)
          "__mermaid_diagram__" (mermaid_entry_sequential env.mermaid_code)
      else documentation
    let documentation :=
      if config.generate_overview && decide (1 < files.length) then
        dictInsert documentation "__project_overview__" (generate_project_overview files client)
      else documentation
    let total_files := files.length
    let documentation := files.foldl (fun d p =>
      dictInsert d p.1 (generate_documentation p.1 p.2 client config.doc_level)) documentation
    ⟨some documentation, [],
     (files.enum.map (fun q => display_documentation_progress_divisions q.1 total_files q.2.1)).flatten⟩

/-- src/core/concurrent_docgen.py lines 66-202,
`generate_all_documentation_concurrent`: the full-concurrent orchestrator.
Client construction failure returns `None`; a worker-pool construction
failure (Python raises ValueError for `max_workers = 0`) is caught by the
strategy-level handler and returns `None`. Every file is submitted to the
pool; results are consumed in `as_completed` order (the `completion_order`
parameter, a permutation of the input). The consumer unpacks THREE values
from the worker's FOUR-tuple, so every future takes the except-branch and the
entry stored under the file's key is the ValueError text. One progress-ratio
division (denominator `total_files`) is performed per completion event. -/
def generate_all_documentation_concurrent (files : List (String × FileInfo)) (config : Config)
    (env : Env) (max_workers : Nat) (completion_order : List (String × FileInfo)) : ExecOutcome :=
  match initialize_client env with
  | .error _ => ⟨none, [], []⟩
  | .ok client =>
    let documentation : Doc := []
    let documentation :=
      if config.generate_dir_structure && decide (1 < files.length) then
        dictInsert (dictInsert documentation "__directory_structure__" env.ascii_tree)
          "__mermaid_diagram__" (mermaid_entry env.mermaid_code)
      else documentation
    let total_files := files.length
    if max_workers = 0 then ⟨none, [], []⟩
    else
      let documentation := completion_order.foldl (fun d p =>
        match unpack3 (generate_file_documentation_worker p.1 p.2 client config.doc_level) with
        | .ok (result_file_path, doc, _success) => dictInsert d result_file_path.asStr doc.asStr
        | .error e => dictInsert d p.1 ("Error processing " ++ p.1 ++ ": " ++ e)) documentation
      let documentation :=
        if config.generate_overview && decide (1 < files.length) then
          dictInsert documentation "__project_overview__"
            (generate_content_based_overview documentation files client config.force_content_overview)
        else documentation
      ⟨some documentation, files.map Prod.fst, List.replicate total_files total_files⟩

/-- Contiguous fixed-size groups: `file_items[i : i + batch_size]` for
`i in range(0, total_files, batch_size)`. For `batch_size = 0` and a
non-empty list Python raises ValueError from `range` (the spec requires
`batch_size ≥ 2`); the model returns no group there and every theorem about
the batch orchestrator assumes `1 ≤ batch_size`. -/
def chunks (k : Nat) (l : List α) : List (List α) :=
  match k, l with
  | _, [] => []
  | 0, _ :: _ => []
  | k + 1, x :: xs => ((x :: xs).take (k + 1)) :: chunks (k + 1) ((x :: xs).drop (k + 1))
termination_by l.length
decreasing_by simp; omega

/-- src/core/concurrent_docgen.py lines 205-321,
`generate_all_documentation_batch`: the batch orchestrator. Client
construction failure returns `None`; groups are processed one after another,
each group's results consumed in `as_completed` order (`reorder`, a
permutation of each group); the consumer unpacks the worker's four values
correctly, stores `doc` under the file's key on success and an error string
otherwise, and performs one progress-ratio division (denominator
`total_files`) per group. -/
def generate_all_documentation_batch (files : List (String × FileInfo)) (config : Config)
    (env : Env) (batch_size : Nat)
    (reorder : List (String × FileInfo) → List (String × FileInfo)) : ExecOutcome :=
  match initialize_client env with
  | .error _ => ⟨none, [], []⟩
  | .ok client =>
    let documentation : Doc := []
    let documentation :=
      if config.generate_dir_structure && decide (1 < files.length) then
        dictInsert (dictInsert documentation "__directory_structure__" env.ascii_tree)
          "__mermaid_diagram__" (mermaid_entry env.mermaid_code)
      else documentation
    let total_files := files.length
    let batches := chunks batch_size files
    let documentation := batches.foldl (fun d b =>
      (reorder b).foldl (fun d2 p =>
        match unpack4 (generate_file_documentation_worker p.1 p.2 client config.doc_level) with
        | .ok (result_file_path, doc, success, error_msg) =>
          if success.asBool then dictInsert d2 result_file_path.asStr doc.asStr
          else dictInsert d2 result_file_path.asStr ("Error: " ++ error_msg.asStr)
        | .error e => dictInsert d2 p.1 ("Error: Worker exception: " ++ e)) d) documentation
    let documentation :=
      if config.generate_overview && decide (1 < files.length) then
        dictInsert documentation "__project_overview__"
          (generate_content_based_overview documentation files client config.force_content_overview)
      else documentation
    ⟨some documentation, (batches.map (fun b => b.map Prod.fst)).flatten,
     batches.map (fun _ => total_files)⟩

/-- Modelled from the spec: `app_concurrent.py` (lines 22-26, 111-113) imports
and calls `generate_all_documentation_concurrent_fixed` from
`core.concurrent_docgen` for the Full Concurrent method, but no definition of
it exists in the source files. Per the spec (section 4.1 unit contract,
section 4.2 full-concurrent) it consumes each unit's
(path, text, succeeded, error detail) result and stores the text under the
unit's own key, collecting results in completion order. -/
def generate_all_documentation_concurrent_fixed (files : List (String × FileInfo))
    (config : Config) (env : Env) (max_workers : Nat)
    (completion_order : List (String × FileInfo)) : ExecOutcome :=
  match initialize_client env with
  | .error _ => ⟨none, [], []⟩
  | .ok client =>
    let documentation : Doc := []
    let documentation :=
      if config.generate_dir_structure && decide (1 < files.length) then
        dictInsert (dictInsert documentation "__directory_structure__" env.ascii_tree)
          "__mermaid_diagram__" (mermaid_entry env.mermaid_code)
      else documentation
    let total_files := files.length
    if max_workers = 0 then ⟨none, [], []⟩
    else
      let documentation := completion_order.foldl (fun d p =>
        match unpack4 (generate_file_documentation_worker p.1 p.2 client config.doc_level) with
        | .ok (result_file_path, doc, _success, _error_msg) =>
          dictInsert d result_file_path.asStr doc.asStr
        | .error e => dictInsert d p.1 ("Error processing " ++ p.1 ++ ": " ++ e)) documentation
      let documentation :=
        if config.generate_overview && decide (1 < files.length) then
          dictInsert documentation "__project_overview__"
            (generate_content_based_overview documentation files client config.force_content_overview)
        else documentation
      ⟨some documentation, files.map Prod.fst, List.replicate total_files total_files⟩

/-- Modelled from the spec: the cooperative-async executor (spec section 2 and
section 4.2, "Async (cooperative)") appears in no source file. Per the spec it
admits at most `max_workers` in-flight logical tasks through a counting gate,
offloads each unit's blocking remote call, gathers completions once all tasks
are scheduled (gathering returns unit results in task submission order, the
input order) and shares the unit-of-work contract and sentinel policy of the
thread-pool executors. -/
def generate_all_documentation_async (files : List (String × FileInfo)) (config : Config)
    (env : Env) (_max_workers : Nat) : ExecOutcome :=
  match initialize_client env with
  | .error _ => ⟨none, [], []⟩
  | .ok client =>
    let documentation : Doc := []
    let documentation :=
      if config.generate_dir_structure && decide (1 < files.length) then
        dictInsert (dictInsert documentation "__directory_structure__" env.ascii_tree)
          "__mermaid_diagram__" (mermaid_entry env.mermaid_code)
      else documentation
    let total_files := files.length
    let documentation := files.foldl (fun d p =>
      match unpack4 (generate_file_documentation_worker p.1 p.2 client config.doc_level) with
      | .ok (result_file_path, doc, _success, _error_msg) =>
        dictInsert d result_file_path.asStr doc.asStr
      | .error e => dictInsert d p.1 ("Error processing " ++ p.1 ++ ": " ++ e)) documentation
    let documentation :=
      if config.generate_overview && decide (1 < files.length) then
        dictInsert documentation "__project_overview__"
          (generate_content_based_overview documentation files client config.force_content_overview)
      else documentation
    ⟨some documentation, files.map Prod.fst, List.replicate total_files total_files⟩

/-- The key multiset the spec's completeness property expects: the two
directory-structure sentinels when that toggle is on and more than one file
was given, one key per input file, and the overview sentinel when that toggle
is on and more than one file was given. -/
def expected_keys (files : List (String × FileInfo)) (config : Config) : List String :=
  (if config.generate_dir_structure && decide (1 < files.length) then
    ["__directory_structure__", "__mermaid_diagram__"] else [])
  ++ files.map Prod.fst
  ++ (if config.generate_overview && decide (1 < files.length) then
    ["__project_overview__"] else [])

/-! Concrete fixtures used by witnesses and counterexamples. -/

/-- A remote client whose every call succeeds with the fixed reply "DOC". -/
def sampleClient : Client := ⟨fun _ _ => .ok "DOC"⟩

/-- A remote client whose every call raises an exception with message "boom". -/
def exnClient : Client := ⟨fun _ _ => .exn "boom"⟩

/-- A sample extracted file. -/
def sampleFile : FileInfo := ⟨"print(1)", "Python", ""⟩

/-- A second sample extracted file, in a subdirectory. -/
def sampleFile2 : FileInfo := ⟨"export x", "JavaScript", "lib"⟩

/-- An environment where client construction succeeds with `sampleClient`. -/
def sampleEnv : Env := ⟨.ok sampleClient, "TREE", "MERMAID"⟩

/-- An environment where client construction raises "denied". -/
def deniedEnv : Env := ⟨.error "denied", "TREE", "MERMAID"⟩

/-- A configuration with both toggles on, comprehensive level, no force flag. -/
def sampleConfig : Config := ⟨"comprehensive", true, true, false⟩

/-- A one-file corpus. -/
def oneFile : List (String × FileInfo) := [("a.py", sampleFile)]

/-- A two-file corpus. -/
def twoFiles : List (String × FileInfo) := [("a.py", sampleFile), ("lib/b.js", sampleFile2)]

/-! ### C8: unrecognized detail levels default to comprehensive -/

/-- C8: for every input to single-file documentation generation, a
`detail_level` other than "basic" or "expert" (any unrecognized string
included) selects the comprehensive instruction text and the comprehensive
max-token ceiling used by `generate_documentation`. -/
theorem c8_unrecognized_detail_level_defaults_to_comprehensive
    (doc_level : String) (hb : doc_level ≠ "basic") (he : doc_level ≠ "expert") :
    detail_instruction doc_level =
      "Provide comprehensive documentation with a good balance of detail." ∧
    detail_max_tokens doc_level = COMPREHENSIVE_LEVEL_MAX_TOKENS := by
  refine ⟨?_, ?_⟩ <;> simp [detail_instruction, detail_max_tokens, hb, he]

/-- Witness for C8 at the unrecognized level "verbose". -/
theorem c8_unrecognized_detail_level_defaults_to_comprehensive_witness :
    detail_instruction "verbose" =
      "Provide comprehensive documentation with a good balance of detail." ∧
    detail_max_tokens "verbose" = COMPREHENSIVE_LEVEL_MAX_TOKENS :=
  c8_unrecognized_detail_level_defaults_to_comprehensive "verbose" (by decide) (by decide)

/-! ### C9: the content-based overview ignores sentinel entries -/

/-- C9: `generate_content_based_overview` consumes only documentation entries
whose key does not start with "__": its result depends on the documentation
mapping only through the non-sentinel entries, and when no non-sentinel entry
exists it returns the fixed string, for every client alike (so no remote call
can influence it). -/
theorem c9_overview_ignores_sentinel_entries
    (documentation documentation2 : Doc) (files : List (String × FileInfo))
    (client : Client) (force_content_overview : Bool) :
    (documentation.filter (fun p => !(py_startswith p.1 "__")) =
        documentation2.filter (fun p => !(py_startswith p.1 "__")) →
      generate_content_based_overview documentation files client force_content_overview =
        generate_content_based_overview documentation2 files client force_content_overview) ∧
    (documentation.filter (fun p => !(py_startswith p.1 "__")) = [] →
      generate_content_based_overview documentation files client force_content_overview =
        "No file documentation available for overview generation.") := by
  constructor
  · intro h
    simp only [generate_content_based_overview]
    rw [h]
  · intro h
    simp [generate_content_based_overview, h]

/-- Witness for C9: a mapping holding only the three sentinel keys filters to
the same (empty) entry list as the empty mapping, the overview is the fixed
string, and the result is the same for the succeeding and the raising client. -/
theorem c9_overview_ignores_sentinel_entries_witness :
    generate_content_based_overview
        [("__directory_structure__", "T"), ("__mermaid_diagram__", "M"),
         ("__project_overview__", "O")] [] exnClient false =
      generate_content_based_overview [] [] exnClient false ∧
    generate_content_based_overview
        [("__directory_structure__", "T"), ("__mermaid_diagram__", "M"),
         ("__project_overview__", "O")] [] sampleClient false =
      "No file documentation available for overview generation." :=
  ⟨(c9_overview_ignores_sentinel_entries
      [("__directory_structure__", "T"), ("__mermaid_diagram__", "M"),
       ("__project_overview__", "O")] [] [] exnClient false).1 (by decide),
   (c9_overview_ignores_sentinel_entries
      [("__directory_structure__", "T"), ("__mermaid_diagram__", "M"),
       ("__project_overview__", "O")] [] [] sampleClient false).2 (by decide)⟩

/-! ### C6: overview strategy selection thresholds -/

/-- C6: with at least one non-sentinel documentation entry,
`generate_content_based_overview` estimates tokens as the length of the
"\n\n"-joined non-sentinel documentation divided by 3 (integer division) and
selects: direct strictly below 15000, per-file summaries from 15000 up to
strictly below 50000, hierarchical at 50000 and above; the force flag selects
direct regardless of size. -/
theorem c6_overview_threshold_selection
    (documentation : Doc) (files : List (String × FileInfo)) (client : Client)
    (force_content_overview : Bool) (file_docs : List (String × String)) (estimated_tokens : Nat)
    (hfd : file_docs = documentation.filter (fun p => !(py_startswith p.1 "__")))
    (hne : file_docs ≠ [])
    (hest : estimated_tokens =
      (String.intercalate "\n\n" (file_docs.map Prod.snd)).length / 3) :
    (force_content_overview = true →
      generate_content_based_overview documentation files client force_content_overview =
        _generate_overview_direct file_docs files client) ∧
    (force_content_overview = false → estimated_tokens < 15000 →
      generate_content_based_overview documentation files client force_content_overview =
        _generate_overview_direct file_docs files client) ∧
    (force_content_overview = false → 15000 ≤ estimated_tokens → estimated_tokens < 50000 →
      generate_content_based_overview documentation files client force_content_overview =
        _generate_overview_with_summaries file_docs files client) ∧
    (force_content_overview = false → 50000 ≤ estimated_tokens →
      generate_content_based_overview documentation files client force_content_overview =
        _generate_overview_hierarchical file_docs files client) := by
  subst hfd
  subst hest
  have hni : (documentation.filter (fun p => !(py_startswith p.1 "__"))).isEmpty = false := by
    simpa [List.isEmpty_iff] using hne
  refine ⟨?_, ?_, ?_, ?_⟩
  · rintro rfl
    simp [generate_content_based_overview, choose_overview_mode, hni]
  · rintro rfl h1
    simp [generate_content_based_overview, choose_overview_mode, hni, h1]
  · rintro rfl h1 h2
    simp [generate_content_based_overview, choose_overview_mode, hni,
      Nat.not_lt.mpr h1, h2]
  · rintro rfl h1
    have h0 : ¬ (String.intercalate "\n\n"
        ((documentation.filter (fun p => !(py_startswith p.1 "__"))).map Prod.snd)).length / 3
        < 15000 := Nat.not_lt.mpr (le_trans (by omega) h1)
    simp [generate_content_based_overview, choose_overview_mode, hni, h0,
      Nat.not_lt.mpr h1]

/-- Witness for C6: one non-sentinel entry of three characters estimates to
one token, strictly below 15000, so the direct strategy is selected. -/
theorem c6_overview_threshold_selection_witness :
    generate_content_based_overview [("a.py", "DOC")] [] sampleClient false =
      _generate_overview_direct [("a.py", "DOC")] [] sampleClient :=
  (c6_overview_threshold_selection [("a.py", "DOC")] [] sampleClient false
      [("a.py", "DOC")] 1 (by decide) (by decide) (by decide)).2.1 rfl (by decide)

/-! ### C10: content truncation -/

/-- `rfind` never returns an index at or past the length of the list. -/
theorem rfind_lt_length (l : List Char) (c : Char) : rfind l c < (l.length : Int) := by
  induction l with
  | nil => simp [rfind]
  | cons x xs ih =>
    simp only [rfind, List.length_cons]
    split
    · push_cast
      omega
    · split <;> push_cast <;> omega

/-- C10: truncation returns the content unchanged when it fits into
`max_chars` characters; otherwise the result is a prefix of the content of at
most `max_chars` characters followed by "\n\n[Content truncated...]", which
ends in the literal marker. -/
theorem c10_truncate_content_bounds (content : String) (max_chars : Nat)
    (hpos : 1 ≤ max_chars) :
    (content.toList.length ≤ max_chars → _truncate_content content max_chars = content) ∧
    (max_chars < content.toList.length →
      ∃ p rest, p.toList ++ rest = content.toList ∧ p.toList.length ≤ max_chars ∧
        _truncate_content content max_chars = p ++ "\n\n[Content truncated...]") := by
  constructor
  · intro hle
    have h2 : ¬ max_chars < content.length := Nat.not_lt.mpr hle
    simp [_truncate_content, hle, h2]
  · intro hgt
    have hnle : ¬ content.toList.length ≤ max_chars := Nat.not_le.mpr hgt
    simp only [_truncate_content, if_neg hnle]
    set cs := content.toList with hcs
    set truncated := cs.take max_chars with htr
    have htlen : truncated.length = max_chars := by
      rw [htr, List.length_take]
      omega
    set boundary := max (rfind truncated '.') (rfind truncated '\n') with hb
    have hblt : boundary < (max_chars : Int) := by
      have h1 := rfind_lt_length truncated '.'
      have h2 := rfind_lt_length truncated '\n'
      rw [htlen] at h1 h2
      omega
    by_cases hcond : boundary * 10 > (max_chars : Int) * 7
    · refine ⟨String.mk (truncated.take (boundary.toNat + 1)),
        cs.drop (min (boundary.toNat + 1) max_chars), ?_, ?_, ?_⟩
      · show (String.mk (truncated.take (boundary.toNat + 1))).toList ++ _ = _
        have : (String.mk (truncated.take (boundary.toNat + 1))).toList =
            truncated.take (boundary.toNat + 1) := rfl
        rw [this, htr, List.take_take, List.take_append_drop]
      · have : (String.mk (truncated.take (boundary.toNat + 1))).toList =
            truncated.take (boundary.toNat + 1) := rfl
        rw [this]
        calc (truncated.take (boundary.toNat + 1)).length ≤ boundary.toNat + 1 :=
              List.length_take_le _ _
          _ ≤ max_chars := by omega
      · rw [if_pos hcond]
    · refine ⟨String.mk truncated, cs.drop max_chars, ?_, ?_, ?_⟩
      · show (String.mk truncated).toList ++ _ = _
        have : (String.mk truncated).toList = truncated := rfl
        rw [this, htr, List.take_append_drop]
      · have : (String.mk truncated).toList = truncated := rfl
        rw [this, htlen]
      · rw [if_neg hcond]

/-- Witness for C10 at a content of 22 characters and limit 10: the short
branch returns the content, the long branch cuts at the sentence boundary. -/
theorem c10_truncate_content_bounds_witness :
    _truncate_content "short" 10 = "short" ∧
    (∃ p rest, p.toList ++ rest = ("One. Two. Three. Four.").toList ∧
      p.toList.length ≤ 10 ∧
      _truncate_content "One. Two. Three. Four." 10 = p ++ "\n\n[Content truncated...]") :=
  ⟨(c10_truncate_content_bounds "short" 10 (by decide)).1 (by decide),
   (c10_truncate_content_bounds "One. Two. Three. Four." 10 (by decide)).2 (by decide)⟩

/-! ### C1 (corrected): the unit absorbs remote exceptions, but reports success -/

/-- Counterexample to C1 as stated: with a client whose call raises "boom",
the worker returns the formatted error text, yet its success flag is `True`,
not the `False` the claim asserts (the exception is absorbed one level down,
inside `generate_documentation`, so the worker's except-branch never runs). -/
theorem c1_counterexample_success_flag_is_true :
    exnClient.call (detail_max_tokens "comprehensive")
        (documentation_prompt "a.py" sampleFile "comprehensive") = .exn "boom" ∧
    generate_file_documentation_worker "a.py" sampleFile exnClient "comprehensive" =
      [.vStr "a.py", .vStr "Error generating documentation: boom", .vBool true, .vStr ""] ∧
    ¬ generate_file_documentation_worker "a.py" sampleFile exnClient "comprehensive" =
      [.vStr "a.py", .vStr "Error generating documentation: boom", .vBool false, .vStr ""] := by
  refine ⟨rfl, rfl, ?_⟩
  decide

/-- C1 as amended: when the remote documentation call raises, the unit of work
never propagates the exception; it returns its own path, the formatted error
string "Error generating documentation: " followed by the original message (a
non-empty error text, stored under the file's key by every orchestrator), the
success flag `True` (not `False`: the exception is already absorbed inside
`generate_documentation`) and an empty error detail. -/
theorem c1_amended_worker_absorbs_remote_exception
    (file_path : String) (file_info : FileInfo) (client : Client) (doc_level : String)
    (msg : String)
    (hraise : client.call (detail_max_tokens doc_level)
      (documentation_prompt file_path file_info doc_level) = .exn msg) :
    generate_file_documentation_worker file_path file_info client doc_level =
      [.vStr file_path, .vStr ("Error generating documentation: " ++ msg),
       .vBool true, .vStr ""] := by
  simp [generate_file_documentation_worker, generate_documentation, hraise]

/-- Witness for C1's amended theorem at the raising client. -/
theorem c1_amended_worker_absorbs_remote_exception_witness :
    generate_file_documentation_worker "a.py" sampleFile exnClient "comprehensive" =
      [.vStr "a.py", .vStr ("Error generating documentation: " ++ "boom"),
       .vBool true, .vStr ""] :=
  c1_amended_worker_absorbs_remote_exception "a.py" sampleFile exnClient "comprehensive"
    "boom" rfl

/-! ### Structural lemmas about the dict model and the per-file folds -/

theorem dictKeys_append (d e : Doc) : dictKeys (d ++ e) = dictKeys d ++ dictKeys e :=
  List.map_append _ _ _

theorem dictInsert_fresh (d : Doc) (k v : String) (h : k ∉ dictKeys d) :
    dictInsert d k v = d ++ [(k, v)] := by
  simp [dictInsert, h]

/-- Folding a per-file insertion body over fresh, key-distinct pairs appends
one entry per pair, in fold order. -/
theorem foldl_insert_fresh (g : (String × FileInfo) → String)
    (body : Doc → (String × FileInfo) → Doc)
    (hbody : ∀ d p, body d p = dictInsert d p.1 (g p)) :
    ∀ (l : List (String × FileInfo)) (d : Doc),
      (∀ p ∈ l, p.1 ∉ dictKeys d) → (l.map Prod.fst).Nodup →
      l.foldl body d = d ++ l.map (fun p => (p.1, g p)) := by
  intro l
  induction l with
  | nil => intro d _ _; simp
  | cons p t ih =>
    intro d hfresh hnodup
    rw [List.map_cons] at hnodup
    have hnd := List.nodup_cons.mp hnodup
    simp only [List.foldl_cons, hbody]
    rw [dictInsert_fresh _ _ _ (hfresh p (by simp)), ih (d ++ [(p.1, g p)]) ?_ hnd.2]
    · simp
    · intro q hq
      have hqd : q.1 ∉ dictKeys d := hfresh q (by simp [hq])
      have hqp : q.1 ≠ p.1 := by
        intro he
        exact hnd.1 (he ▸ List.mem_map_of_mem Prod.fst hq)
      intro hmem
      rcases List.mem_append.mp (by simpa [dictKeys_append] using hmem) with h | h
      · exact hqd h
      · exact hqp (by simpa [dictKeys] using h)

/-- The groups of the batch partition concatenate back to the input. -/
theorem chunks_flatten (k : Nat) (hk : 1 ≤ k) :
    ∀ l : List (String × FileInfo), (chunks k l).flatten = l := by
  have main : ∀ (n : Nat) (l : List (String × FileInfo)), l.length ≤ n →
      (chunks k l).flatten = l := by
    intro n
    induction n with
    | zero =>
      intro l hl
      rw [List.length_eq_zero.mp (Nat.le_zero.mp hl)]
      simp [chunks]
    | succ n ihn =>
      intro l hl
      obtain ⟨j, rfl⟩ : ∃ j, k = j + 1 := ⟨k - 1, by omega⟩
      match l with
      | [] => simp [chunks]
      | x :: xs =>
        rw [chunks]
        simp only [List.flatten_cons]
        rw [ihn ((x :: xs).drop (j + 1))
            (by simp only [List.length_drop, List.length_cons] at hl ⊢; omega),
          List.take_append_drop]
  intro l
  exact main l.length l le_rfl

/-- Reordering every group permutes the concatenation. -/
theorem flatten_map_perm (reorder : List (String × FileInfo) → List (String × FileInfo))
    (hre : ∀ b, (reorder b).Perm b) :
    ∀ batches : List (List (String × FileInfo)),
      ((batches.map reorder).flatten).Perm batches.flatten := by
  intro batches
  induction batches with
  | nil => simp
  | cons b t ih =>
    simp only [List.map_cons, List.flatten_cons]
    exact List.Perm.append (hre b) ih

/-- A nested group-by-group fold over reordered groups is the fold over the
concatenation of the reordered groups. -/
theorem foldl_grouped (body : Doc → (String × FileInfo) → Doc)
    (reorder : List (String × FileInfo) → List (String × FileInfo))
    (batches : List (List (String × FileInfo))) (d : Doc) :
    batches.foldl (fun acc b => (reorder b).foldl body acc) d =
      ((batches.map reorder).flatten).foldl body d := by
  induction batches generalizing d with
  | nil => simp
  | cons b t ih => simp [ih]

/-- Both directory-structure sentinel keys, the overview sentinel key and
nothing else make up the dict produced by the directory-visualization step. -/
theorem dir_step_eq (config : Config) (files : List (String × FileInfo)) (t m : String) :
    (if config.generate_dir_structure && decide (1 < files.length) then
        dictInsert (dictInsert ([] : Doc) "__directory_structure__" t) "__mermaid_diagram__" m
      else ([] : Doc)) =
    (if config.generate_dir_structure && decide (1 < files.length) then
        [("__directory_structure__", t), ("__mermaid_diagram__", m)]
      else ([] : Doc)) := by
  split
  · rfl
  · rfl

/-- Every key of the directory-visualization step starts with a double
underscore, and those keys are free of the overview sentinel. -/
theorem dir_step_keys (config : Config) (files : List (String × FileInfo)) (t m : String)
    (k : String)
    (hk : k ∈ dictKeys (if config.generate_dir_structure && decide (1 < files.length) then
        [("__directory_structure__", t), ("__mermaid_diagram__", m)]
      else ([] : Doc))) :
    py_startswith k "__" = true ∧ k ≠ "__project_overview__" := by
  revert hk
  split
  · intro hk
    simp only [dictKeys, List.map_cons, List.map_nil, List.mem_cons, List.not_mem_nil,
      or_false] at hk
    rcases hk with rfl | rfl
    · exact ⟨by decide, by decide⟩
    · exact ⟨by decide, by decide⟩
  · intro hk
    simp [dictKeys] at hk




theorem insert_overview_shape (d : Doc) (cond : Bool) (text : String)
    (hfresh : "__project_overview__" ∉ dictKeys d) :
    (if cond = true then dictInsert d "__project_overview__" text else d) =
      d ++ (if cond = true then [("__project_overview__", text)] else []) := by
  split
  · rw [dictInsert_fresh _ _ _ hfresh]
  · simp

theorem concurrent_result_shape
    (files : List (String × FileInfo)) (config : Config) (env : Env) (client : Client)
    (max_workers : Nat) (completion_order : List (String × FileInfo))
    (hinit : env.anthropic_ctor = .ok client) (hw : ¬ max_workers = 0)
    (hnodup : (completion_order.map Prod.fst).Nodup)
    (hfresh : ∀ p ∈ completion_order, py_startswith p.1 "__" = false) :
    ∃ ov : String,
      (generate_all_documentation_concurrent files config env max_workers
          completion_order).result =
        some ((if config.generate_dir_structure && decide (1 < files.length) then
            [("__directory_structure__", env.ascii_tree),
             ("__mermaid_diagram__", mermaid_entry env.mermaid_code)]
          else [])
        ++ completion_order.map (fun p =>
            (p.1, "Error processing " ++ p.1 ++ ": " ++ "too many values to unpack (expected 3)"))
        ++ (if config.generate_overview && decide (1 < files.length) then
            [("__project_overview__", ov)] else [])) := by
  have hdirfresh : ∀ p ∈ completion_order, p.1 ∉ dictKeys
      (if config.generate_dir_structure && decide (1 < files.length) then
        [("__directory_structure__", env.ascii_tree),
         ("__mermaid_diagram__", mermaid_entry env.mermaid_code)]
      else ([] : Doc)) := by
    intro p hp hk
    have := (dir_step_keys config files env.ascii_tree (mermaid_entry env.mermaid_code) p.1 hk).1
    rw [hfresh p hp] at this
    exact Bool.false_ne_true this
  have hfold := foldl_insert_fresh
    (fun p => "Error processing " ++ p.1 ++ ": " ++ "too many values to unpack (expected 3)")
    (fun d p =>
      match unpack3 (generate_file_documentation_worker p.1 p.2 client config.doc_level) with
      | .ok (result_file_path, doc, _success) => dictInsert d result_file_path.asStr doc.asStr
      | .error e => dictInsert d p.1 ("Error processing " ++ p.1 ++ ": " ++ e))
    (fun d p => rfl) completion_order _ hdirfresh hnodup
  have hovfresh : "__project_overview__" ∉ dictKeys
      ((if config.generate_dir_structure && decide (1 < files.length) then
          [("__directory_structure__", env.ascii_tree),
           ("__mermaid_diagram__", mermaid_entry env.mermaid_code)]
        else ([] : Doc))
      ++ completion_order.map (fun p =>
          (p.1, "Error processing " ++ p.1 ++ ": " ++ "too many values to unpack (expected 3)"))) := by
    intro hk
    rw [dictKeys_append] at hk
    rcases List.mem_append.mp hk with h | h
    · exact (dir_step_keys config files env.ascii_tree (mermaid_entry env.mermaid_code) _ h).2 rfl
    · simp only [dictKeys, List.map_map, List.mem_map] at h
      obtain ⟨p, hp, hpk⟩ := h
      have hb := hfresh p hp
      rw [show p.1 = "__project_overview__" from hpk] at hb
      exact absurd hb (by decide)
  refine ⟨generate_content_based_overview
      ((if config.generate_dir_structure && decide (1 < files.length) then
          [("__directory_structure__", env.ascii_tree),
           ("__mermaid_diagram__", mermaid_entry env.mermaid_code)]
        else ([] : Doc))
      ++ completion_order.map (fun p =>
          (p.1, "Error processing " ++ p.1 ++ ": " ++ "too many values to unpack (expected 3)")))
      files client config.force_content_overview, ?_⟩
  simp only [generate_all_documentation_concurrent, initialize_client, hinit, if_neg hw,
    dir_step_eq]
  rw [hfold, insert_overview_shape _ _ _ (by simpa using hovfresh)]


theorem sequential_result_shape
    (files : List (String × FileInfo)) (config : Config) (env : Env) (client : Client)
    (hinit : env.anthropic_ctor = .ok client)
    (hnodup : (files.map Prod.fst).Nodup)
    (hfresh : ∀ p ∈ files, py_startswith p.1 "__" = false) :
    (generate_all_documentation files config env).result =
      some ((if config.generate_dir_structure && decide (1 < files.length) then
          [("__directory_structure__", env.ascii_tree),
           ("__mermaid_diagram__", mermaid_entry_sequential env.mermaid_code)]
        else [])
      ++ (if config.generate_overview && decide (1 < files.length) then
          [("__project_overview__", generate_project_overview files client)] else [])
      ++ files.map (fun p =>
          (p.1, generate_documentation p.1 p.2 client config.doc_level))) := by
  have hovfresh : "__project_overview__" ∉ dictKeys
      (if config.generate_dir_structure && decide (1 < files.length) then
        [("__directory_structure__", env.ascii_tree),
         ("__mermaid_diagram__", mermaid_entry_sequential env.mermaid_code)]
      else ([] : Doc)) := fun hk =>
    (dir_step_keys config files env.ascii_tree (mermaid_entry_sequential env.mermaid_code)
      _ hk).2 rfl
  have hfoldfresh : ∀ p ∈ files, p.1 ∉ dictKeys
      ((if config.generate_dir_structure && decide (1 < files.length) then
          [("__directory_structure__", env.ascii_tree),
           ("__mermaid_diagram__", mermaid_entry_sequential env.mermaid_code)]
        else ([] : Doc))
      ++ (if config.generate_overview && decide (1 < files.length) then
          [("__project_overview__", generate_project_overview files client)] else [])) := by
    intro p hp hk
    rw [dictKeys_append] at hk
    rcases List.mem_append.mp hk with h | h
    · have := (dir_step_keys config files env.ascii_tree
        (mermaid_entry_sequential env.mermaid_code) _ h).1
      rw [hfresh p hp] at this
      exact Bool.false_ne_true this
    · revert h
      split
      · intro h
        have : p.1 = "__project_overview__" := by simpa [dictKeys] using h
        have hb := hfresh p hp
        rw [this] at hb
        exact absurd hb (by decide)
      · intro h
        simp [dictKeys] at h
  have hfold := foldl_insert_fresh
    (fun p => generate_documentation p.1 p.2 client config.doc_level)
    (fun d p => dictInsert d p.1 (generate_documentation p.1 p.2 client config.doc_level))
    (fun d p => rfl) files _ hfoldfresh hnodup
  simp only [generate_all_documentation, initialize_client, hinit, dir_step_eq,
    insert_overview_shape _ _ _ hovfresh]
  rw [hfold]

theorem concurrent_fixed_result_shape
    (files : List (String × FileInfo)) (config : Config) (env : Env) (client : Client)
    (max_workers : Nat) (completion_order : List (String × FileInfo))
    (hinit : env.anthropic_ctor = .ok client) (hw : ¬ max_workers = 0)
    (hnodup : (completion_order.map Prod.fst).Nodup)
    (hfresh : ∀ p ∈ completion_order, py_startswith p.1 "__" = false) :
    ∃ ov : String,
      (generate_all_documentation_concurrent_fixed files config env max_workers
          completion_order).result =
        some ((if config.generate_dir_structure && decide (1 < files.length) then
            [("__directory_structure__", env.ascii_tree),
             ("__mermaid_diagram__", mermaid_entry env.mermaid_code)]
          else [])
        ++ completion_order.map (fun p =>
            (p.1, generate_documentation p.1 p.2 client config.doc_level))
        ++ (if config.generate_overview && decide (1 < files.length) then
            [("__project_overview__", ov)] else [])) := by
  have hdirfresh : ∀ p ∈ completion_order, p.1 ∉ dictKeys
      (if config.generate_dir_structure && decide (1 < files.length) then
        [("__directory_structure__", env.ascii_tree),
         ("__mermaid_diagram__", mermaid_entry env.mermaid_code)]
      else ([] : Doc)) := by
    intro p hp hk
    have := (dir_step_keys config files env.ascii_tree (mermaid_entry env.mermaid_code) p.1 hk).1
    rw [hfresh p hp] at this
    exact Bool.false_ne_true this
  have hfold := foldl_insert_fresh
    (fun p => generate_documentation p.1 p.2 client config.doc_level)
    (fun d p =>
      match unpack4 (generate_file_documentation_worker p.1 p.2 client config.doc_level) with
      | .ok (result_file_path, doc, _success, _error_msg) =>
        dictInsert d result_file_path.asStr doc.asStr
      | .error e => dictInsert d p.1 ("Error processing " ++ p.1 ++ ": " ++ e))
    (fun d p => rfl) completion_order _ hdirfresh hnodup
  have hovfresh : "__project_overview__" ∉ dictKeys
      ((if config.generate_dir_structure && decide (1 < files.length) then
          [("__directory_structure__", env.ascii_tree),
           ("__mermaid_diagram__", mermaid_entry env.mermaid_code)]
        else ([] : Doc))
      ++ completion_order.map (fun p =>
          (p.1, generate_documentation p.1 p.2 client config.doc_level))) := by
    intro hk
    rw [dictKeys_append] at hk
    rcases List.mem_append.mp hk with h | h
    · exact (dir_step_keys config files env.ascii_tree (mermaid_entry env.mermaid_code) _ h).2 rfl
    · simp only [dictKeys, List.map_map, List.mem_map] at h
      obtain ⟨p, hp, hpk⟩ := h
      have hb := hfresh p hp
      rw [show p.1 = "__project_overview__" from hpk] at hb
      exact absurd hb (by decide)
  refine ⟨generate_content_based_overview
      ((if config.generate_dir_structure && decide (1 < files.length) then
          [("__directory_structure__", env.ascii_tree),
           ("__mermaid_diagram__", mermaid_entry env.mermaid_code)]
        else ([] : Doc))
      ++ completion_order.map (fun p =>
          (p.1, generate_documentation p.1 p.2 client config.doc_level)))
      files client config.force_content_overview, ?_⟩
  simp only [generate_all_documentation_concurrent_fixed, initialize_client, hinit,
    if_neg hw, dir_step_eq]
  rw [hfold, insert_overview_shape _ _ _ (by simpa using hovfresh)]

theorem async_result_shape
    (files : List (String × FileInfo)) (config : Config) (env : Env) (client : Client)
    (max_workers : Nat)
    (hinit : env.anthropic_ctor = .ok client)
    (hnodup : (files.map Prod.fst).Nodup)
    (hfresh : ∀ p ∈ files, py_startswith p.1 "__" = false) :
    ∃ ov : String,
      (generate_all_documentation_async files config env max_workers).result =
        some ((if config.generate_dir_structure && decide (1 < files.length) then
            [("__directory_structure__", env.ascii_tree),
             ("__mermaid_diagram__", mermaid_entry env.mermaid_code)]
          else [])
        ++ files.map (fun p =>
            (p.1, generate_documentation p.1 p.2 client config.doc_level))
        ++ (if config.generate_overview && decide (1 < files.length) then
            [("__project_overview__", ov)] else [])) := by
  have hdirfresh : ∀ p ∈ files, p.1 ∉ dictKeys
      (if config.generate_dir_structure && decide (1 < files.length) then
        [("__directory_structure__", env.ascii_tree),
         ("__mermaid_diagram__", mermaid_entry env.mermaid_code)]
      else ([] : Doc)) := by
    intro p hp hk
    have := (dir_step_keys config files env.ascii_tree (mermaid_entry env.mermaid_code) p.1 hk).1
    rw [hfresh p hp] at this
    exact Bool.false_ne_true this
  have hfold := foldl_insert_fresh
    (fun p => generate_documentation p.1 p.2 client config.doc_level)
    (fun d p =>
      match unpack4 (generate_file_documentation_worker p.1 p.2 client config.doc_level) with
      | .ok (result_file_path, doc, _success, _error_msg) =>
        dictInsert d result_file_path.asStr doc.asStr
      | .error e => dictInsert d p.1 ("Error processing " ++ p.1 ++ ": " ++ e))
    (fun d p => rfl) files _ hdirfresh hnodup
  have hovfresh : "__project_overview__" ∉ dictKeys
      ((if config.generate_dir_structure && decide (1 < files.length) then
          [("__directory_structure__", env.ascii_tree),
           ("__mermaid_diagram__", mermaid_entry env.mermaid_code)]
        else ([] : Doc))
      ++ files.map (fun p =>
          (p.1, generate_documentation p.1 p.2 client config.doc_level))) := by
    intro hk
    rw [dictKeys_append] at hk
    rcases List.mem_append.mp hk with h | h
    · exact (dir_step_keys config files env.ascii_tree (mermaid_entry env.mermaid_code) _ h).2 rfl
    · simp only [dictKeys, List.map_map, List.mem_map] at h
      obtain ⟨p, hp, hpk⟩ := h
      have hb := hfresh p hp
      rw [show p.1 = "__project_overview__" from hpk] at hb
      exact absurd hb (by decide)
  refine ⟨generate_content_based_overview
      ((if config.generate_dir_structure && decide (1 < files.length) then
          [("__directory_structure__", env.ascii_tree),
           ("__mermaid_diagram__", mermaid_entry env.mermaid_code)]
        else ([] : Doc))
      ++ files.map (fun p =>
          (p.1, generate_documentation p.1 p.2 client config.doc_level)))
      files client config.force_content_overview, ?_⟩
  simp only [generate_all_documentation_async, initialize_client, hinit, dir_step_eq]
  rw [hfold, insert_overview_shape _ _ _ (by simpa using hovfresh)]

theorem batch_result_shape
    (files : List (String × FileInfo)) (config : Config) (env : Env) (client : Client)
    (batch_size : Nat) (reorder : List (String × FileInfo) → List (String × FileInfo))
    (hinit : env.anthropic_ctor = .ok client) (hbs : 1 ≤ batch_size)
    (hnodup : (files.map Prod.fst).Nodup)
    (hfresh : ∀ p ∈ files, py_startswith p.1 "__" = false)
    (hre : ∀ b, (reorder b).Perm b) :
    ∃ ov : String,
      (generate_all_documentation_batch files config env batch_size reorder).result =
        some ((if config.generate_dir_structure && decide (1 < files.length) then
            [("__directory_structure__", env.ascii_tree),
             ("__mermaid_diagram__", mermaid_entry env.mermaid_code)]
          else [])
        ++ (((chunks batch_size files).map reorder).flatten).map (fun p =>
            (p.1, generate_documentation p.1 p.2 client config.doc_level))
        ++ (if config.generate_overview && decide (1 < files.length) then
            [("__project_overview__", ov)] else [])) := by
  have hperm : ((((chunks batch_size files).map reorder).flatten)).Perm files := by
    have h := flatten_map_perm reorder hre (chunks batch_size files)
    rwa [chunks_flatten batch_size hbs files] at h
  have hnodup2 : ((((chunks batch_size files).map reorder).flatten).map Prod.fst).Nodup :=
    ((hperm.map Prod.fst).symm).nodup hnodup
  have hfresh2 : ∀ p ∈ ((chunks batch_size files).map reorder).flatten,
      py_startswith p.1 "__" = false := fun p hp => hfresh p (hperm.subset hp)
  have hdirfresh : ∀ p ∈ ((chunks batch_size files).map reorder).flatten, p.1 ∉ dictKeys
      (if config.generate_dir_structure && decide (1 < files.length) then
        [("__directory_structure__", env.ascii_tree),
         ("__mermaid_diagram__", mermaid_entry env.mermaid_code)]
      else ([] : Doc)) := by
    intro p hp hk
    have := (dir_step_keys config files env.ascii_tree (mermaid_entry env.mermaid_code) p.1 hk).1
    rw [hfresh2 p hp] at this
    exact Bool.false_ne_true this
  have hfold := foldl_insert_fresh
    (fun p => generate_documentation p.1 p.2 client config.doc_level)
    (fun d2 p =>
      match unpack4 (generate_file_documentation_worker p.1 p.2 client config.doc_level) with
      | .ok (result_file_path, doc, success, error_msg) =>
        if success.asBool then dictInsert d2 result_file_path.asStr doc.asStr
        else dictInsert d2 result_file_path.asStr ("Error: " ++ error_msg.asStr)
      | .error e => dictInsert d2 p.1 ("Error: Worker exception: " ++ e))
    (fun d p => rfl) (((chunks batch_size files).map reorder).flatten) _ hdirfresh hnodup2
  have hovfresh : "__project_overview__" ∉ dictKeys
      ((if config.generate_dir_structure && decide (1 < files.length) then
          [("__directory_structure__", env.ascii_tree),
           ("__mermaid_diagram__", mermaid_entry env.mermaid_code)]
        else ([] : Doc))
      ++ (((chunks batch_size files).map reorder).flatten).map (fun p =>
          (p.1, generate_documentation p.1 p.2 client config.doc_level))) := by
    intro hk
    rw [dictKeys_append] at hk
    rcases List.mem_append.mp hk with h | h
    · exact (dir_step_keys config files env.ascii_tree (mermaid_entry env.mermaid_code) _ h).2 rfl
    · simp only [dictKeys, List.map_map, List.mem_map] at h
      obtain ⟨p, hp, hpk⟩ := h
      have hb := hfresh2 p hp
      rw [show p.1 = "__project_overview__" from hpk] at hb
      exact absurd hb (by decide)
  refine ⟨generate_content_based_overview
      ((if config.generate_dir_structure && decide (1 < files.length) then
          [("__directory_structure__", env.ascii_tree),
           ("__mermaid_diagram__", mermaid_entry env.mermaid_code)]
        else ([] : Doc))
      ++ (((chunks batch_size files).map reorder).flatten).map (fun p =>
          (p.1, generate_documentation p.1 p.2 client config.doc_level)))
      files client config.force_content_overview, ?_⟩
  simp only [generate_all_documentation_batch, initialize_client, hinit, dir_step_eq]
  rw [foldl_grouped, hfold, insert_overview_shape _ _ _ (by simpa using hovfresh)]


/-- The keys of a result in dir-sentinels / per-file / overview-sentinel
shape. -/
theorem keys_of_shape (dcond ocond : Bool) (t m ov : String)
    (order : List (String × FileInfo)) (g : (String × FileInfo) → String) :
    dictKeys ((if dcond then [("__directory_structure__", t), ("__mermaid_diagram__", m)]
        else ([] : Doc))
      ++ order.map (fun p => (p.1, g p))
      ++ (if ocond then [("__project_overview__", ov)] else ([] : Doc))) =
    (if dcond then ["__directory_structure__", "__mermaid_diagram__"] else [])
      ++ order.map Prod.fst
      ++ (if ocond then ["__project_overview__"] else []) := by
  cases dcond <;> cases ocond <;>
    simp [dictKeys, List.map_append, List.map_map, Function.comp]

/-- Keys in that shape are a permutation of the expected key list whenever the
per-file portion is a permutation of the input files. -/
theorem keys_shape_perm_expected (files order : List (String × FileInfo)) (config : Config)
    (h : order.Perm files) :
    ((if config.generate_dir_structure && decide (1 < files.length) then
        ["__directory_structure__", "__mermaid_diagram__"] else [])
      ++ order.map Prod.fst
      ++ (if config.generate_overview && decide (1 < files.length) then
        ["__project_overview__"] else [])).Perm (expected_keys files config) :=
  List.Perm.append (List.Perm.append (List.Perm.refl _) (h.map Prod.fst)) (List.Perm.refl _)

/-- The expected key list has no duplicate: the paths are distinct, no path is
a double-underscore sentinel, and the three sentinel keys are distinct. -/
theorem expected_keys_nodup (files : List (String × FileInfo)) (config : Config)
    (hnodup : (files.map Prod.fst).Nodup)
    (hfresh : ∀ p ∈ files, py_startswith p.1 "__" = false) :
    (expected_keys files config).Nodup := by
  have hkey : ∀ k ∈ files.map Prod.fst, py_startswith k "__" = false := by
    intro k hk
    obtain ⟨p, hp, rfl⟩ := List.mem_map.mp hk
    exact hfresh p hp
  unfold expected_keys
  rw [List.nodup_append, List.nodup_append]
  refine ⟨⟨?_, hnodup, ?_⟩, ?_, ?_⟩
  · split
    · exact List.nodup_cons.mpr ⟨by decide, List.nodup_singleton _⟩
    · exact List.nodup_nil
  · intro k hk hk2
    have hb := hkey k hk2
    revert hk
    split
    · intro hk
      rcases List.mem_cons.mp hk with rfl | hk
      · exact absurd hb (by decide)
      · rw [List.mem_singleton.mp hk] at hb
        exact absurd hb (by decide)
    · intro hk
      exact absurd hk (List.not_mem_nil k)
  · split
    · exact List.nodup_singleton _
    · exact List.nodup_nil
  · intro k hk hk2
    have hkov : k = "__project_overview__" := by
      revert hk2
      split
      · intro hk2
        exact List.mem_singleton.mp hk2
      · intro hk2
        exact absurd hk2 (List.not_mem_nil k)
    subst hkov
    rcases List.mem_append.mp hk with h | h
    · revert h
      split
      · intro h
        rcases List.mem_cons.mp h with h | h
        · exact absurd h (by decide)
        · exact absurd (List.mem_singleton.mp h) (by decide)
      · intro h
        exact absurd h (List.not_mem_nil _)
    · have hb := hkey _ h
      exact absurd hb (by decide)


/-- Keys of the sequential result shape (overview sentinel inserted before the
per-file entries). -/
theorem keys_of_seq_shape (dcond ocond : Bool) (t m ov : String)
    (order : List (String × FileInfo)) (g : (String × FileInfo) → String) :
    dictKeys ((if dcond then [("__directory_structure__", t), ("__mermaid_diagram__", m)]
        else ([] : Doc))
      ++ (if ocond then [("__project_overview__", ov)] else ([] : Doc))
      ++ order.map (fun p => (p.1, g p))) =
    (if dcond then ["__directory_structure__", "__mermaid_diagram__"] else [])
      ++ (if ocond then ["__project_overview__"] else [])
      ++ order.map Prod.fst := by
  cases dcond <;> cases ocond <;>
    simp [dictKeys, List.map_append, List.map_map, Function.comp]

/-- Exchanging the last two append blocks is a permutation. -/
theorem perm_swap_last (a b c : List String) : (a ++ c ++ b).Perm (a ++ b ++ c) := by
  rw [List.append_assoc, List.append_assoc]
  exact List.Perm.append_left a List.perm_append_comm

/-! ### C3: key completeness of every orchestrator -/

/-- C3: under a valid run (client construction succeeds, distinct non-sentinel
paths, positive concurrency parameters, any completion orders), each of the
three orchestrators returns a mapping whose keys are exactly one entry per
input file path plus the sentinel entries implied by the enabled toggles (the
two directory keys when that toggle is on and more than one file was given,
the overview key when that toggle is on and more than one file was given) and
nothing else; a unit failure never drops its entry (in the full-concurrent
orchestrator every unit fails, yet every key is present). -/
theorem c3_key_completeness
    (files : List (String × FileInfo)) (config : Config) (env : Env) (client : Client)
    (max_workers batch_size : Nat)
    (completion_order : List (String × FileInfo))
    (reorder : List (String × FileInfo) → List (String × FileInfo))
    (hinit : env.anthropic_ctor = .ok client)
    (hnodup : (files.map Prod.fst).Nodup)
    (hfresh : ∀ p ∈ files, py_startswith p.1 "__" = false)
    (hw : 1 ≤ max_workers) (hbs : 1 ≤ batch_size)
    (hperm : completion_order.Perm files)
    (hre : ∀ b, (reorder b).Perm b) :
    (expected_keys files config).Nodup ∧
    (∃ m, (generate_all_documentation files config env).result = some m ∧
      (dictKeys m).Perm (expected_keys files config)) ∧
    (∃ m, (generate_all_documentation_concurrent files config env max_workers
        completion_order).result = some m ∧
      (dictKeys m).Perm (expected_keys files config)) ∧
    (∃ m, (generate_all_documentation_batch files config env batch_size reorder).result
        = some m ∧ (dictKeys m).Perm (expected_keys files config)) := by
  refine ⟨expected_keys_nodup files config hnodup hfresh, ?_, ?_, ?_⟩
  · refine ⟨_, sequential_result_shape files config env client hinit hnodup hfresh, ?_⟩
    rw [keys_of_seq_shape]
    exact (perm_swap_last _ _ _).trans
      (keys_shape_perm_expected files files config (List.Perm.refl _))
  · have hnodup2 : (completion_order.map Prod.fst).Nodup :=
      ((hperm.map Prod.fst).symm).nodup hnodup
    have hfresh2 : ∀ p ∈ completion_order, py_startswith p.1 "__" = false :=
      fun p hp => hfresh p (hperm.subset hp)
    obtain ⟨ov, hres⟩ := concurrent_result_shape files config env client max_workers
      completion_order hinit (by omega) hnodup2 hfresh2
    refine ⟨_, hres, ?_⟩
    rw [keys_of_shape]
    exact keys_shape_perm_expected files completion_order config hperm
  · have hperm2 : ((((chunks batch_size files).map reorder).flatten)).Perm files := by
      have h := flatten_map_perm reorder hre (chunks batch_size files)
      rwa [chunks_flatten batch_size hbs files] at h
    have hnodup2 : ((((chunks batch_size files).map reorder).flatten).map Prod.fst).Nodup :=
      ((hperm2.map Prod.fst).symm).nodup hnodup
    obtain ⟨ov, hres⟩ := batch_result_shape files config env client batch_size reorder
      hinit hbs hnodup hfresh hre
    refine ⟨_, hres, ?_⟩
    rw [keys_of_shape]
    exact keys_shape_perm_expected files _ config hperm2
  
/-- Witness for C3: two files, both toggles on, workers and batch size
positive, the identity completion orders. -/
theorem c3_key_completeness_witness :
    (expected_keys twoFiles sampleConfig).Nodup ∧
    (∃ m, (generate_all_documentation twoFiles sampleConfig sampleEnv).result = some m ∧
      (dictKeys m).Perm (expected_keys twoFiles sampleConfig)) ∧
    (∃ m, (generate_all_documentation_concurrent twoFiles sampleConfig sampleEnv 2
        twoFiles).result = some m ∧
      (dictKeys m).Perm (expected_keys twoFiles sampleConfig)) ∧
    (∃ m, (generate_all_documentation_batch twoFiles sampleConfig sampleEnv 3 id).result
        = some m ∧ (dictKeys m).Perm (expected_keys twoFiles sampleConfig)) :=
  c3_key_completeness twoFiles sampleConfig sampleEnv sampleClient 2 3 twoFiles id
    rfl (by decide) (by decide) (by decide) (by decide)
    (List.Perm.refl _) (fun b => List.Perm.refl b)

/-! ### C5: client-construction failure aborts the whole run -/

/-- C5: for every orchestrator, when remote-client construction raises, the
run returns the failure signal `None` with no partial mapping, no spawned
worker and no progress computation; and (under the configuration invariants
`max_workers ≥ 1`, `batch_size ≥ 1`) this is the only unit-independent
failure: whenever client construction succeeds, every orchestrator returns a
mapping. -/
theorem c5_client_failure_voids_run
    (files : List (String × FileInfo)) (config : Config) (env : Env)
    (max_workers batch_size : Nat)
    (completion_order : List (String × FileInfo))
    (reorder : List (String × FileInfo) → List (String × FileInfo))
    (hw : 1 ≤ max_workers) (hbs : 1 ≤ batch_size) :
    ((∃ e, env.anthropic_ctor = .error e) →
      generate_all_documentation files config env = ⟨none, [], []⟩ ∧
      generate_all_documentation_concurrent files config env max_workers completion_order
        = ⟨none, [], []⟩ ∧
      generate_all_documentation_batch files config env batch_size reorder
        = ⟨none, [], []⟩) ∧
    (∀ client, env.anthropic_ctor = .ok client →
      ((generate_all_documentation files config env).result).isSome = true ∧
      ((generate_all_documentation_concurrent files config env max_workers
          completion_order).result).isSome = true ∧
      ((generate_all_documentation_batch files config env batch_size
          reorder).result).isSome = true) := by
  constructor
  · rintro ⟨e, he⟩
    refine ⟨?_, ?_, ?_⟩ <;>
      simp [generate_all_documentation, generate_all_documentation_concurrent,
        generate_all_documentation_batch, initialize_client, he]
  · intro client hok
    refine ⟨?_, ?_, ?_⟩
    · simp [generate_all_documentation, initialize_client, hok]
    · simp [generate_all_documentation_concurrent, initialize_client, hok,
        show ¬ max_workers = 0 by omega]
    · simp [generate_all_documentation_batch, initialize_client, hok]

/-- Witness for C5: with the raising environment every orchestrator returns
the failure signal, and with the succeeding environment each returns a
mapping (one file, two workers, batch size three, identity orders). -/
theorem c5_client_failure_voids_run_witness :
    (generate_all_documentation oneFile sampleConfig deniedEnv = ⟨none, [], []⟩ ∧
      generate_all_documentation_concurrent oneFile sampleConfig deniedEnv 2 oneFile
        = ⟨none, [], []⟩ ∧
      generate_all_documentation_batch oneFile sampleConfig deniedEnv 3 id
        = ⟨none, [], []⟩) ∧
    (((generate_all_documentation oneFile sampleConfig sampleEnv).result).isSome = true ∧
      ((generate_all_documentation_concurrent oneFile sampleConfig sampleEnv 2
          oneFile).result).isSome = true ∧
      ((generate_all_documentation_batch oneFile sampleConfig sampleEnv 3
          id).result).isSome = true) :=
  ⟨(c5_client_failure_voids_run oneFile sampleConfig deniedEnv 2 3 oneFile id
      (by decide) (by decide)).1 ⟨"denied", rfl⟩,
   (c5_client_failure_voids_run oneFile sampleConfig sampleEnv 2 3 oneFile id
      (by decide) (by decide)).2 sampleClient rfl⟩

/-! ### C7: empty input -/

/-- C7: for an empty input file set, every orchestrator returns the empty
mapping immediately: no worker is spawned, no progress-ratio division
(`completed / total`) is ever evaluated (so no division by zero), and the
sentinel entries are skipped because the more-than-one-file gate fails
whatever the toggles are. -/
theorem c7_empty_input_returns_empty
    (config : Config) (env : Env) (client : Client) (max_workers batch_size : Nat)
    (reorder : List (String × FileInfo) → List (String × FileInfo))
    (hinit : env.anthropic_ctor = .ok client)
    (hw : 1 ≤ max_workers) (hbs : 1 ≤ batch_size) :
    generate_all_documentation [] config env = ⟨some [], [], []⟩ ∧
    generate_all_documentation_concurrent [] config env max_workers []
      = ⟨some [], [], []⟩ ∧
    generate_all_documentation_batch [] config env batch_size reorder
      = ⟨some [], [], []⟩ := by
  refine ⟨?_, ?_, ?_⟩
  · simp [generate_all_documentation, initialize_client, hinit]
  · simp [generate_all_documentation_concurrent, initialize_client, hinit,
      show ¬ max_workers = 0 by omega]
  · simp [generate_all_documentation_batch, initialize_client, hinit, chunks]

/-- Witness for C7 with both toggles on, two workers and batch size three. -/
theorem c7_empty_input_returns_empty_witness :
    generate_all_documentation [] sampleConfig sampleEnv = ⟨some [], [], []⟩ ∧
    generate_all_documentation_concurrent [] sampleConfig sampleEnv 2 []
      = ⟨some [], [], []⟩ ∧
    generate_all_documentation_batch [] sampleConfig sampleEnv 3 id
      = ⟨some [], [], []⟩ :=
  c7_empty_input_returns_empty sampleConfig sampleEnv sampleClient 2 3 id rfl
    (by decide) (by decide)


/-! ### C2 (code bug): the full-concurrent orchestrator corrupts every entry -/

/-- C2, evaluated at the failing input: one file whose remote call succeeds
with "DOC". The sequential and batch orchestrators store the documentation
text under the file's key, but the full-concurrent orchestrator stores a
ValueError text instead — its consumer unpacks three values from the worker's
four-tuple (src/core/concurrent_docgen.py line 167 against lines 61 and 63),
so every future takes the except-branch. The strategies therefore do not
produce the same key-to-value content. -/
theorem c2_full_concurrent_diverges_from_sequential_and_batch :
    (generate_all_documentation oneFile sampleConfig sampleEnv).result
      = some [("a.py", "DOC")] ∧
    (generate_all_documentation_batch oneFile sampleConfig sampleEnv 3 id).result
      = some [("a.py", "DOC")] ∧
    (generate_all_documentation_concurrent oneFile sampleConfig sampleEnv 3 oneFile).result
      = some [("a.py", "Error processing a.py: too many values to unpack (expected 3)")] ∧
    ¬ (generate_all_documentation_concurrent oneFile sampleConfig sampleEnv 3
        oneFile).result
      = (generate_all_documentation oneFile sampleConfig sampleEnv).result := by
  have hch : chunks 3 oneFile = [oneFile] := by
    simp [chunks, oneFile]
  refine ⟨by decide, ?_, by decide, by decide⟩
  simp only [generate_all_documentation_batch, initialize_client, sampleEnv, hch]
  decide

/-! ### Association-list lookup lemmas (for C4) -/

theorem dictGet?_cons (k1 v1 : String) (t : Doc) (k : String) :
    dictGet? ((k1, v1) :: t) k = if k1 = k then some v1 else dictGet? t k := by
  simp only [dictGet?, List.find?_cons]
  by_cases h : k1 = k
  · simp [h]
  · simp [h]

theorem mem_dictKeys_cons (k k1 v1 : String) (t : Doc) :
    k ∈ dictKeys ((k1, v1) :: t) ↔ k = k1 ∨ k ∈ dictKeys t := by
  simp [dictKeys]

theorem dictGet?_eq_none_iff (d : Doc) (k : String) :
    dictGet? d k = none ↔ k ∉ dictKeys d := by
  induction d with
  | nil => simp [dictGet?, dictKeys]
  | cons p t ih =>
    obtain ⟨k1, v1⟩ := p
    rw [dictGet?_cons]
    by_cases h : k1 = k
    · subst h
      simp [mem_dictKeys_cons]
    · have h2 : ¬ k = k1 := fun he => h he.symm
      rw [if_neg h, ih, mem_dictKeys_cons]
      simp [h2]

theorem dictGet?_some_iff (d : Doc) (hnd : (dictKeys d).Nodup) (k v : String) :
    dictGet? d k = some v ↔ (k, v) ∈ d := by
  induction d with
  | nil => simp [dictGet?]
  | cons p t ih =>
    obtain ⟨k1, v1⟩ := p
    have hc : dictKeys ((k1, v1) :: t) = k1 :: dictKeys t := rfl
    rw [hc] at hnd
    have hnd2 := List.nodup_cons.mp hnd
    rw [dictGet?_cons]
    by_cases h : k1 = k
    · subst h
      constructor
      · intro hv
        exact List.mem_cons.mpr (Or.inl (by simpa using hv.symm))
      · intro hm
        rcases List.mem_cons.mp hm with hm | hm
        · simp only [Prod.mk.injEq, true_and] at hm
          simp [hm]
        · exact absurd (List.mem_map_of_mem Prod.fst hm) hnd2.1
    · rw [if_neg h, ih hnd2.2]
      constructor
      · exact fun hm => List.mem_cons.mpr (Or.inr hm)
      · intro hm
        rcases List.mem_cons.mp hm with hm | hm
        · exact absurd (congrArg Prod.fst hm).symm h
        · exact hm

theorem dictGet?_perm (d e : Doc) (h : d.Perm e) (hnd : (dictKeys d).Nodup) (k : String) :
    dictGet? d k = dictGet? e k := by
  have hnde : (dictKeys e).Nodup := (h.map Prod.fst).nodup hnd
  cases hd : dictGet? d k with
  | none =>
    symm
    rw [dictGet?_eq_none_iff] at hd ⊢
    intro hke
    exact hd ((h.map Prod.fst).mem_iff.mpr hke)
  | some v =>
    exact ((dictGet?_some_iff e hnde k v).mpr (h.subset ((dictGet?_some_iff d hnd k v).mp hd))).symm

theorem dictGet?_append (d e : Doc) (k : String) :
    dictGet? (d ++ e) k = (dictGet? d k).or (dictGet? e k) := by
  unfold dictGet?
  rw [List.find?_append]
  cases d.find? (fun p => p.1 = k) <;> simp


/-! ### C4: the async executor against the fixed full-concurrent executor -/

/-- C4 (spec-modelled): the cooperative-async executor and the (fixed)
full-concurrent executor — both absent from the source files and modelled
from the spec — are functionally interchangeable from the caller's
perspective on every valid input: both return a mapping (never a failure),
with the same key multiset, identical values under every non-sentinel key
(one entry per input file, carrying that file's generated documentation), and
the same submitted tasks; the completion order of the thread pool is
irrelevant to this contract. -/
theorem c4_async_interchangeable_with_full_concurrent
    (files : List (String × FileInfo)) (config : Config) (env : Env) (client : Client)
    (max_workers : Nat) (completion_order : List (String × FileInfo))
    (hinit : env.anthropic_ctor = .ok client) (hw : 1 ≤ max_workers)
    (hnodup : (files.map Prod.fst).Nodup)
    (hfresh : ∀ p ∈ files, py_startswith p.1 "__" = false)
    (hperm : completion_order.Perm files) :
    ∃ ma mc,
      (generate_all_documentation_async files config env max_workers).result = some ma ∧
      (generate_all_documentation_concurrent_fixed files config env max_workers
        completion_order).result = some mc ∧
      (dictKeys ma).Perm (dictKeys mc) ∧
      (∀ k, py_startswith k "__" = false → dictGet? ma k = dictGet? mc k) ∧
      (generate_all_documentation_async files config env max_workers).spawned =
        (generate_all_documentation_concurrent_fixed files config env max_workers
          completion_order).spawned := by
  have hnodup2 : (completion_order.map Prod.fst).Nodup :=
    ((hperm.map Prod.fst).symm).nodup hnodup
  have hfresh2 : ∀ p ∈ completion_order, py_startswith p.1 "__" = false :=
    fun p hp => hfresh p (hperm.subset hp)
  obtain ⟨ova, hra⟩ := async_result_shape files config env client max_workers
    hinit hnodup hfresh
  obtain ⟨ovc, hrc⟩ := concurrent_fixed_result_shape files config env client max_workers
    completion_order hinit (by omega) hnodup2 hfresh2
  have hov : ∀ ov k, py_startswith k "__" = false →
      dictGet? (if config.generate_overview && decide (1 < files.length) then
        [("__project_overview__", ov)] else ([] : Doc)) k = none := by
    intro ov k hk
    have hne : ¬ "__project_overview__" = k := by
      intro he
      rw [← he] at hk
      exact absurd hk (by decide)
    split
    · rw [dictGet?_cons, if_neg hne]
      rfl
    · rfl
  have hdir : ∀ k, py_startswith k "__" = false →
      dictGet? (if config.generate_dir_structure && decide (1 < files.length) then
        [("__directory_structure__", env.ascii_tree),
         ("__mermaid_diagram__", mermaid_entry env.mermaid_code)] else ([] : Doc)) k
        = none := by
    intro k hk
    rw [dictGet?_eq_none_iff]
    intro hkA
    have hb := (dir_step_keys config files env.ascii_tree
      (mermaid_entry env.mermaid_code) k hkA).1
    rw [hk] at hb
    exact Bool.false_ne_true hb
  refine ⟨_, _, hra, hrc, ?_, ?_, ?_⟩
  · rw [keys_of_shape, keys_of_shape]
    exact List.Perm.append (List.Perm.append (List.Perm.refl _)
      ((hperm.map Prod.fst).symm)) (List.Perm.refl _)
  · intro k hk
    rw [dictGet?_append, dictGet?_append, dictGet?_append, dictGet?_append,
      hdir k hk, hov ova k hk, hov ovc k hk]
    simp only [Option.none_or, Option.or_none]
    have hkeysf : dictKeys (files.map (fun p =>
        (p.1, generate_documentation p.1 p.2 client config.doc_level))) =
        files.map Prod.fst := by
      simp [dictKeys, List.map_map, Function.comp]
    exact dictGet?_perm _ _
      ((hperm.map (fun p => (p.1, generate_documentation p.1 p.2 client
        config.doc_level))).symm)
      (by rw [hkeysf]; exact hnodup) k
  · simp only [generate_all_documentation_async,
      generate_all_documentation_concurrent_fixed, initialize_client, hinit,
      if_neg (show ¬ max_workers = 0 by omega)]

/-- Witness for C4 at two files with the reversed completion order. -/
theorem c4_async_interchangeable_with_full_concurrent_witness :
    ∃ ma mc,
      (generate_all_documentation_async twoFiles sampleConfig sampleEnv 2).result
        = some ma ∧
      (generate_all_documentation_concurrent_fixed twoFiles sampleConfig sampleEnv 2
        twoFiles.reverse).result = some mc ∧
      (dictKeys ma).Perm (dictKeys mc) ∧
      (∀ k, py_startswith k "__" = false → dictGet? ma k = dictGet? mc k) ∧
      (generate_all_documentation_async twoFiles sampleConfig sampleEnv 2).spawned =
        (generate_all_documentation_concurrent_fixed twoFiles sampleConfig sampleEnv 2
          twoFiles.reverse).spawned :=
  c4_async_interchangeable_with_full_concurrent twoFiles sampleConfig sampleEnv
    sampleClient 2 twoFiles.reverse rfl (by decide) (by decide) (by decide)
    (List.reverse_perm twoFiles)

end DocGen
